import Mathlib

/-!
Shallow embedding of the model-resolver core of the nmc_met_map repository.

The repository consists of three plotting entry points, each of which embeds
an inline model-name lookup table (the "static table" of the spec), plus one
filename-construction utility:

  * src/nmc_met_map/mesoscale.py, function cref_uv850 (analysis type
    "composite-reflectivity-and-wind");
  * src/nmc_met_map/qpf.py, function qpf_24h (analysis type
    "precipitation-24h");
  * src/nmc_met_map/synoptic.py, function gh500_uv850_mslp (analysis type
    "synoptic-500hpa");
  * src/nmc_met_map/utility.py, function model_filename.

Only the lookup and formatting logic is embedded; retrieval and rendering are
external collaborators and out of scope.
-/

/-- Embedding of the character class stripped by the Python method
str.strip with no argument (ASCII whitespace as relevant here). -/
def isPySpace (c : Char) : Bool :=
  c = ' ' || c = '\t' || c = '\n' || c = '\r' || c = '\x0b' || c = '\x0c'

/-- Embedding of Python str.strip (no argument): drop leading and trailing
whitespace characters. -/
def pyStrip (s : String) : String :=
  String.mk (((s.data.dropWhile isPySpace).reverse.dropWhile isPySpace).reverse)

/-- Embedding of Python str.upper on the ASCII strings used as model names. -/
def pyUpper (s : String) : String :=
  String.mk (s.data.map Char.toUpper)

/-- Left-pad a string with the zero character to a minimum width w.
This is the padding performed by a Python format spec 0w for a
non-negative integer (minimum field width, never truncating). -/
def zfill (w : Nat) (s : String) : String :=
  if s.length < w then String.mk (List.replicate (w - s.length) '0') ++ s else s

/-- Embedding of the Python expression formatting an int with format spec
03d, as in utility.model_filename: total field width at least 3, the sign
counting toward the width, zero-padding after the sign. -/
def pyFormat03 (n : Int) : String :=
  if n < 0 then "-" ++ zfill 2 (Nat.repr n.natAbs) else zfill 3 (Nat.repr n.toNat)

/-- The fields of a Python datetime object that model_filename reads. -/
structure PyDatetime where
  year : Nat
  month : Nat
  day : Nat
  hour : Nat
deriving DecidableEq

/-- Embedding of initial_time.strftime applied to the format used in
utility.model_filename: two-digit year (year modulo 100), month, day and
hour, each zero-padded to width two. -/
def strftime_yymmddhh (d : PyDatetime) : String :=
  zfill 2 (Nat.repr (d.year % 100)) ++ zfill 2 (Nat.repr d.month) ++
    zfill 2 (Nat.repr d.day) ++ zfill 2 (Nat.repr d.hour)

/-- The initial_time argument of model_filename: either a datetime object or
a string (the two cases the source distinguishes with isinstance). -/
inductive InitialTime where
  | dt (d : PyDatetime)
  | str (s : String)
deriving DecidableEq

/-- Embedding of utility.model_filename: for a datetime, format it as
two-digit year, month, day, hour; for a string, strip whitespace and use it
as-is; then append a dot and the forecast hour formatted with spec 03d. -/
def model_filename : InitialTime → Int → String
  | .dt d, fhour => strftime_yymmddhh d ++ "." ++ pyFormat03 fhour
  | .str s, fhour => pyStrip s ++ "." ++ pyFormat03 fhour

/-- The three analysis types of the spec, one per plotting entry point that
owns a static model table. -/
inductive AnalysisType where
  | crefUv850
  | qpf24h
  | gh500Uv850Mslp
deriving DecidableEq

/-- The inline data_dirs tables of the three entry points, as association
lists keyed by the upper-case model name, in source order. -/
def data_dirs : AnalysisType → List (String × List String)
  | .crefUv850 =>
      [("SHANGHAI", ["SHANGHAI_HR/COMPOSITE_REFLECTIVITY/ENTIRE_ATMOSPHERE",
                     "SHANGHAI_HR/UGRD/850", "SHANGHAI_HR/VGRD/850"]),
       ("BEIJING", ["BEIJING_MR/COMPOSITE_REFLECTIVITY/ENTIRE_ATMOSPHERE",
                    "BEIJING_MR/UGRD/850", "BEIJING_MR/VGRD/850"]),
       ("GRAPES_MESO", ["GRAPES_MESO_HR/RADAR_COMBINATION_REFLECTIVITY",
                        "GRAPES_MESO_HR/UGRD/850", "GRAPES_MESO_HR/VGRD/850"]),
       ("GRAPES_3KM", ["GRAPES_3KM/RADAR_COMBINATION_REFLECTIVITY",
                       "GRAPES_3KM/UGRD/850", "GRAPES_3KM/VGRD/850"])]
  | .qpf24h =>
      [("ECMWF", ["ECMWF_HR/RAIN24"])]
  | .gh500Uv850Mslp =>
      [("ECMWF", ["ECMWF_LR/HGT/500", "ECMWF_LR/UGRD/850",
                  "ECMWF_LR/VGRD/850", "ECMWF_LR/PRMSL"]),
       ("GRAPES", ["GRAPES_GFS/HGT/500", "GRAPES_GFS/UGRD/850",
                   "GRAPES_GFS/VGRD/850", "GRAPES_GFS/PRMSL"]),
       ("NCEP", ["NCEP_GFS/HGT/500", "NCEP_GFS/UGRD/850",
                 "NCEP_GFS/VGRD/850", "NCEP_GFS/PRMSL"])]

/-- The message of the ValueError each entry point raises on a failed table
lookup, verbatim from the source. -/
def unknownModelMessage : AnalysisType → String
  | .crefUv850 => "Unknown model, choose ShangHai, BeiJing, Grapes_meso of Grapes_3km."
  | .qpf24h => "Unknown model, choose ECMWF, GRAPES or NCEP."
  | .gh500Uv850Mslp => "Unknown model, choose ECMWF, GRAPES or NCEP."

/-- The model names listed in each unknown-model error message, verbatim
from the message text of the source. -/
def errorModelNames : AnalysisType → List String
  | .crefUv850 => ["ShangHai", "BeiJing", "Grapes_meso", "Grapes_3km"]
  | .qpf24h => ["ECMWF", "GRAPES", "NCEP"]
  | .gh500Uv850Mslp => ["ECMWF", "GRAPES", "NCEP"]

/-- The single error kind of the resolver (the spec names it
UnknownModelError; in the source it is a ValueError with a message). -/
inductive ResolveError where
  | unknownModel (message : String)
deriving DecidableEq

/-- Normalization applied to the model argument before the table lookup:
model.strip().upper() in every entry point. -/
def normalizeModel (s : String) : String := pyUpper (pyStrip s)

/-- First-match association-list lookup, the embedding of a Python dict
lookup on these literal tables (whose keys are distinct). -/
def lookupDir : List (String × List String) → String → Option (List String)
  | [], _ => none
  | (k, v) :: rest, m => if k = m then some v else lookupDir rest m

/-- The resolver of the spec: data_dirs[model.strip().upper()] with a
KeyError turned into the unknown-model error, as each entry point does. -/
def resolve_field_paths (model : String) (a : AnalysisType) :
    Except ResolveError (List String) :=
  match lookupDir (data_dirs a) (normalizeModel model) with
  | some v => .ok v
  | none => .error (.unknownModel (unknownModelMessage a))

/-- The highest position each call site indexes into the resolved sequence,
plus one: cref_uv850 reads data_dir[0], [1], [2]; qpf_24h reads data_dir[0];
gh500_uv850_mslp reads data_dir[0] through data_dir[3]. -/
def neededEntries : AnalysisType → Nat
  | .crefUv850 => 3
  | .qpf24h => 1
  | .gh500Uv850Mslp => 4

/-- The root directory segment of a path: the characters before the first
slash. -/
def rootOf (p : String) : String :=
  String.mk (p.data.takeWhile (fun c => c != '/'))

/-- Two model-name spellings differ only in letter case or in leading or
trailing whitespace: after stripping, they agree character by character up
to case. -/
def spellingEquiv (s t : String) : Prop :=
  (pyStrip s).data.map Char.toUpper = (pyStrip t).data.map Char.toUpper

instance (s t : String) : Decidable (spellingEquiv s t) :=
  inferInstanceAs (Decidable (_ = _))

instance {ε α : Type} [DecidableEq ε] [DecidableEq α] : DecidableEq (Except ε α) := fun x y =>
  match x, y with
  | .error a, .error b =>
      if h : a = b then .isTrue (by rw [h])
      else .isFalse (fun hc => h (Except.error.inj hc))
  | .error _, .ok _ => .isFalse (fun hc => Except.noConfusion hc)
  | .ok _, .error _ => .isFalse (fun hc => Except.noConfusion hc)
  | .ok a, .ok b =>
      if h : a = b then .isTrue (by rw [h])
      else .isFalse (fun hc => h (Except.ok.inj hc))

/-- Unfolding equation of model_filename on a datetime initial time. -/
theorem model_filename_dt (d : PyDatetime) (fh : Int) :
    model_filename (.dt d) fh = strftime_yymmddhh d ++ "." ++ pyFormat03 fh := rfl

/-- Unfolding equation of model_filename on a string initial time. -/
theorem model_filename_str (s : String) (fh : Int) :
    model_filename (.str s) fh = pyStrip s ++ "." ++ pyFormat03 fh := rfl

/-- On a non-negative forecast hour, the 03d format is plain zero-padding of
the decimal digits to a minimum width of three. -/
theorem pyFormat03_ofNat (fh : Nat) : pyFormat03 (fh : Int) = zfill 3 (Nat.repr fh) := by
  unfold pyFormat03
  rw [if_neg (by omega), show ((fh : Int)).toNat = fh from by omega]

/-- Zero-padding to width w yields a string of length at least w. -/
theorem length_zfill (w : Nat) (s : String) : w ≤ (zfill w s).length := by
  unfold zfill
  split
  · rw [String.length_append]
    show w ≤ (List.replicate (w - s.length) '0').length + s.length
    rw [List.length_replicate]
    omega
  · omega

/-- The lookup misses exactly when the key is absent from the key list. -/
theorem lookupDir_eq_none_iff (l : List (String × List String)) (m : String) :
    lookupDir l m = none ↔ m ∉ l.map Prod.fst := by
  induction l with
  | nil => simp [lookupDir]
  | cons kv rest ih =>
    obtain ⟨k, v⟩ := kv
    by_cases h : k = m
    · subst h
      simp [lookupDir]
    · simp [lookupDir, h, ih, Ne.symm h]

/-- A present key produces some table row. -/
theorem lookupDir_mem_isSome (l : List (String × List String)) (m : String)
    (h : m ∈ l.map Prod.fst) : ∃ v, lookupDir l m = some v := by
  cases hl : lookupDir l m with
  | none => exact absurd h ((lookupDir_eq_none_iff l m).1 hl)
  | some v => exact ⟨v, rfl⟩

/-- C1: for every model key of each analysis type, the resolver returns
exactly the configured ordered path sequence of that key, and any two
spellings that differ only in letter case or leading and trailing
whitespace resolve to the identical result. -/
theorem C1_resolve_table_case_insensitive :
    (∀ a : AnalysisType, ∀ kv ∈ data_dirs a, resolve_field_paths kv.1 a = .ok kv.2) ∧
    (∀ (a : AnalysisType) (s t : String), spellingEquiv s t →
      resolve_field_paths s a = resolve_field_paths t a) := by
  constructor
  · intro a
    cases a <;> decide
  · intro a s t h
    have hn : normalizeModel s = normalizeModel t := congrArg String.mk h
    unfold resolve_field_paths
    rw [hn]

/-- Witness for C1 at a concrete pair of spellings: the spelling with
whitespace and lower case resolves like the canonical key, and the
canonical key resolves to its configured sequence. -/
theorem C1_witness :
    resolve_field_paths " ecmwf " .qpf24h = resolve_field_paths "ECMWF" .qpf24h ∧
    resolve_field_paths "ECMWF" .qpf24h = .ok ["ECMWF_HR/RAIN24"] :=
  ⟨C1_resolve_table_case_insensitive.2 .qpf24h " ecmwf " "ECMWF" (by decide),
   C1_resolve_table_case_insensitive.1 .qpf24h ("ECMWF", ["ECMWF_HR/RAIN24"]) (by decide)⟩

/-- C2: an absent normalized model name yields exactly the unknown-model
error of that analysis type, a present one yields a successful result, and
the unknown-model error is the only error the resolver ever returns. -/
theorem C2_unknown_model_error :
    ∀ (a : AnalysisType) (s : String),
      (normalizeModel s ∉ (data_dirs a).map Prod.fst →
        resolve_field_paths s a = .error (.unknownModel (unknownModelMessage a))) ∧
      (normalizeModel s ∈ (data_dirs a).map Prod.fst →
        ∃ v, resolve_field_paths s a = .ok v) ∧
      (∀ e, resolve_field_paths s a = .error e →
        e = .unknownModel (unknownModelMessage a)) := by
  intro a s
  refine ⟨?_, ?_, ?_⟩
  · intro h
    unfold resolve_field_paths
    rw [(lookupDir_eq_none_iff _ _).2 h]
  · intro h
    obtain ⟨v, hv⟩ := lookupDir_mem_isSome _ _ h
    refine ⟨v, ?_⟩
    unfold resolve_field_paths
    rw [hv]
  · intro e he
    unfold resolve_field_paths at he
    cases hl : lookupDir (data_dirs a) (normalizeModel s) with
    | none =>
        rw [hl] at he
        exact (Except.error.inj he).symm
    | some v =>
        rw [hl] at he
        exact Except.noConfusion he

/-- Witness for C2: the unknown name FOO fails with the unknown-model error
and the known spelling ecmwf succeeds. -/
theorem C2_witness :
    resolve_field_paths "FOO" .qpf24h =
      .error (.unknownModel (unknownModelMessage .qpf24h)) ∧
    ∃ v, resolve_field_paths "ecmwf" .qpf24h = .ok v :=
  ⟨(C2_unknown_model_error .qpf24h "FOO").1 (by decide),
   (C2_unknown_model_error .qpf24h "ecmwf").2.1 (by decide)⟩

/-- C3 diverges on the code: for the composite-reflectivity and synoptic
analysis types the names listed in the error message match the table keys
after normalization, but the precipitation-24h message lists ECMWF, GRAPES
and NCEP while its table has only the key ECMWF, and resolving GRAPES, a
name the message itself suggests, fails with that very error again. -/
theorem C3_qpf_error_names_diverge :
    (errorModelNames .crefUv850).map normalizeModel = (data_dirs .crefUv850).map Prod.fst ∧
    (errorModelNames .gh500Uv850Mslp).map normalizeModel =
      (data_dirs .gh500Uv850Mslp).map Prod.fst ∧
    (errorModelNames .qpf24h).map normalizeModel = ["ECMWF", "GRAPES", "NCEP"] ∧
    (data_dirs .qpf24h).map Prod.fst = ["ECMWF"] ∧
    resolve_field_paths "GRAPES" .qpf24h =
      .error (.unknownModel (unknownModelMessage .qpf24h)) := by
  decide

/-- C4: on a datetime initial time the filename is the two-digit year,
month, day and hour followed by a dot and the padded forecast hour; for
in-range datetime fields the time token has exactly eight characters; at
the concrete example the result is 18042008.003. -/
theorem C4_datetime_format :
    (∀ (d : PyDatetime) (fh : Nat),
        model_filename (.dt d) (fh : Int) =
          strftime_yymmddhh d ++ "." ++ zfill 3 (Nat.repr fh)) ∧
    (∀ d : PyDatetime, d.month ≤ 12 → d.day ≤ 31 → d.hour ≤ 23 →
        (strftime_yymmddhh d).length = 8) ∧
    model_filename (.dt ⟨2018, 4, 20, 8⟩) 3 = "18042008.003" := by
  refine ⟨?_, ?_, by decide⟩
  · intro d fh
    rw [model_filename_dt, pyFormat03_ofNat]
  · intro d hm hd hh
    have h2 : ∀ n, n < 100 → (zfill 2 (Nat.repr n)).length = 2 := by decide
    unfold strftime_yymmddhh
    rw [String.length_append, String.length_append, String.length_append,
        h2 _ (Nat.mod_lt _ (by omega)), h2 _ (by omega), h2 _ (by omega), h2 _ (by omega)]

/-- Witness for C4 at the datetime of the spec example. -/
theorem C4_witness :
    (strftime_yymmddhh ⟨2018, 4, 20, 8⟩).length = 8 ∧
    model_filename (.dt ⟨2018, 4, 20, 8⟩) 3 = "18042008.003" :=
  ⟨C4_datetime_format.2.1 ⟨2018, 4, 20, 8⟩ (by decide) (by decide) (by decide),
   C4_datetime_format.2.2⟩

/-- C5: on a string initial time the filename is the whitespace-stripped
string used as-is, followed by a dot and the padded forecast hour, matching
both concrete examples of the spec. -/
theorem C5_string_initial_time :
    (∀ (s : String) (fh : Nat),
        model_filename (.str s) (fh : Int) = pyStrip s ++ "." ++ zfill 3 (Nat.repr fh)) ∧
    model_filename (.str "18042008") 0 = "18042008.000" ∧
    model_filename (.str " 18042008 ") 12 = "18042008.012" := by
  refine ⟨?_, by decide, by decide⟩
  intro s fh
  rw [model_filename_str, pyFormat03_ofNat]

/-- C6 as stated is false: at forecast hour 1000 the output is
18042008.1000, whose suffix after the dot has four digits, so no
three-character suffix can follow the dot. -/
theorem C6_counterexample :
    model_filename (.str "18042008") 1000 = "18042008.1000" ∧
    ¬ ∃ d : String, d.length = 3 ∧
        model_filename (.str "18042008") 1000 = "18042008." ++ d := by
  refine ⟨by decide, ?_⟩
  rintro ⟨d, hlen, heq⟩
  have h13 : (model_filename (.str "18042008") 1000).length = 13 := by decide
  rw [heq, String.length_append, hlen] at h13
  exact absurd h13 (by decide)

/-- C6 amended: for every non-negative forecast hour the output ends with a
dot followed by the decimal forecast hour zero-padded to a minimum of three
digits, so hours of four or more digits appear in full. -/
theorem C6_amended_min_width_three :
    ∀ (t : InitialTime) (fh : Nat),
      ∃ p, model_filename t (fh : Int) = p ++ "." ++ zfill 3 (Nat.repr fh) ∧
        3 ≤ (zfill 3 (Nat.repr fh)).length := by
  intro t fh
  cases t with
  | dt d =>
      refine ⟨strftime_yymmddhh d, ?_, length_zfill 3 _⟩
      rw [model_filename_dt, pyFormat03_ofNat]
  | str s =>
      refine ⟨pyStrip s, ?_, length_zfill 3 _⟩
      rw [model_filename_str, pyFormat03_ofNat]

/-- C7: the filename construction is deterministic, equal inputs give equal
outputs. -/
theorem C7_deterministic :
    ∀ (t₁ t₂ : InitialTime) (f₁ f₂ : Int),
      t₁ = t₂ → f₁ = f₂ → model_filename t₁ f₁ = model_filename t₂ f₂ := by
  intro t₁ t₂ f₁ f₂ ht hf
  rw [ht, hf]

/-- Witness for C7 at a concrete input. -/
theorem C7_witness :
    model_filename (.str "18042008") 3 = model_filename (.str "18042008") 3 :=
  C7_deterministic _ _ _ _ rfl rfl

/-- C8: every configured path sequence has at least as many entries as its
call site indexes, so positional indexing under the known-model
precondition stays in range. -/
theorem C8_enough_entries :
    ∀ (a : AnalysisType), ∀ kv ∈ data_dirs a, neededEntries a ≤ kv.2.length := by
  intro a
  cases a <;> decide

/-- Witness for C8 at the precipitation table row. -/
theorem C8_witness :
    neededEntries .qpf24h ≤ (["ECMWF_HR/RAIN24"] : List String).length :=
  C8_enough_entries .qpf24h ("ECMWF", ["ECMWF_HR/RAIN24"]) (by decide)

/-- C9: within each table row, every path carries the same root directory
segment as the first path of the row, and that root followed by a slash is
a prefix of the path. -/
theorem C9_common_root :
    ∀ (a : AnalysisType), ∀ kv ∈ data_dirs a, ∀ p ∈ kv.2,
      rootOf p = rootOf (kv.2.headD "") ∧
        ((rootOf p ++ "/").data.isPrefixOf p.data) = true := by
  intro a
  cases a <;> decide

/-- Witness for C9 at the precipitation table row and its single path. -/
theorem C9_witness :
    rootOf "ECMWF_HR/RAIN24" = rootOf ((["ECMWF_HR/RAIN24"] : List String).headD "") ∧
    ((rootOf "ECMWF_HR/RAIN24" ++ "/").data.isPrefixOf ("ECMWF_HR/RAIN24" : String).data) = true :=
  C9_common_root .qpf24h ("ECMWF", ["ECMWF_HR/RAIN24"]) (by decide)
    "ECMWF_HR/RAIN24" (by decide)

/-- C10: the filename construction is total over strings, datetimes and all
integer forecast hours; on a negative hour the part after the dot is a
minus sign followed by the digits of the absolute hour zero-padded so the
whole field has width at least three, as in the concrete outputs for hour
minus one and for the empty string. -/
theorem C10_total_and_negative :
    (∀ (t : InitialTime) (fh : Int),
      (∃ s, model_filename t fh = s) ∧
      (fh < 0 →
        ∃ p, model_filename t fh = p ++ "." ++ ("-" ++ zfill 2 (Nat.repr fh.natAbs)) ∧
          3 ≤ ("-" ++ zfill 2 (Nat.repr fh.natAbs)).length)) ∧
    model_filename (.str "18042008") (-1) = "18042008.-01" ∧
    model_filename (.str "") 0 = ".000" := by
  refine ⟨?_, by decide, by decide⟩
  intro t fh
  refine ⟨⟨model_filename t fh, rfl⟩, ?_⟩
  intro hneg
  have hfmt : pyFormat03 fh = "-" ++ zfill 2 (Nat.repr fh.natAbs) := by
    unfold pyFormat03
    rw [if_pos hneg]
  have h1 : ("-" : String).length = 1 := rfl
  have hlen : 3 ≤ ("-" ++ zfill 2 (Nat.repr fh.natAbs)).length := by
    rw [String.length_append]
    have := length_zfill 2 (Nat.repr fh.natAbs)
    omega
  cases t with
  | dt d =>
      refine ⟨strftime_yymmddhh d, ?_, hlen⟩
      rw [model_filename_dt, hfmt]
  | str s =>
      refine ⟨pyStrip s, ?_, hlen⟩
      rw [model_filename_str, hfmt]

/-- Witness for C10 at forecast hour minus one. -/
theorem C10_witness :
    ∃ p, model_filename (.str "18042008") (-1) =
        p ++ "." ++ ("-" ++ zfill 2 (Nat.repr (Int.natAbs (-1)))) ∧
      3 ≤ ("-" ++ zfill 2 (Nat.repr (Int.natAbs (-1)))).length :=
  (C10_total_and_negative.1 (.str "18042008") (-1)).2 (by decide)
